import Mathlib

/-!
Verification of the WaterWise usage-analytics and conservation-recommendation
engine against its natural-language specification.

The analytics engine lives in `src/app/services/api/openMeteo.ts`
(`analyzeUsagePatterns`, `calculateMonthlyTrends`,
`identifySavingsOpportunities`, `generateUsageReport`) and
`src/app/services/ai/waterAdvisor.ts` (`getUserUsageAnalysis`,
`getBillsAnalysis`, `getRegionalWaterContext`, `generateRecommendations`).

Modelling conventions of the shallow embedding:
* JavaScript numbers are modelled as `ℚ` (exact rational arithmetic; the
  analytics code performs only `+ - * /` on small values, and the claims
  under verification do not concern floating-point rounding).
* A usage event date (`YYYY-MM-DD` string in the store, always produced in
  canonical zero-padded ISO form by the app's date pickers) is modelled as a
  structured `DateYMD`; distinctness of date strings coincides with
  distinctness of `DateYMD` values for canonical strings.
* `Date.prototype.getDay()` on such a date is modelled by Sakamoto's
  day-of-week algorithm (`0 = Sunday`, matching JavaScript, with the host
  timezone taken as UTC so the civil date maps to itself).
* Fallible reads (`getAllUsage`, `getAllBills`, the weather fetch) are
  modelled as `Except Unit` values held in an environment record: within one
  invocation all reads of the same store see the same snapshot and either all
  succeed or all fail, matching the single-database synchronous store.
* `try { ... } catch { ... }` becomes a `match` on those `Except` values;
  `Array.prototype.sort` becomes `List.insertionSort` with the comparator of
  the source (the sorted keys are pairwise distinct, so any correct sort
  yields the same list); JavaScript object-key deduplication becomes
  `List.dedup`; `Number.prototype.toFixed` is modelled by `qToFixed`
  (round half away from zero, exact on the values reached here).
-/

namespace WaterWise

/-! ## Dates -/

/-- A calendar date, the structured form of a canonical `YYYY-MM-DD` string
(`month` is 1-based, i.e. JavaScript `getMonth() + 1`). -/
structure DateYMD where
  year : Nat
  month : Nat
  day : Nat
deriving DecidableEq

/-- Sakamoto day-of-week table. -/
def sakTable : List Nat := [0, 3, 2, 5, 0, 3, 5, 1, 4, 6, 2, 4]

/-- Model of `Date.prototype.getDay()`: day of week, `0 = Sunday .. 6 = Saturday`
(Sakamoto's algorithm). -/
def DateYMD.getDay (d : DateYMD) : Nat :=
  let y := if d.month < 3 then d.year - 1 else d.year
  (y + y / 4 - y / 100 + y / 400 + sakTable.getD (d.month - 1) 0 + d.day) % 7

/-! ## Data model (src/app/services/db/usage.ts, bills.ts) -/

/-- One recorded water-consumption entry (interface `Usage`). -/
structure Usage where
  id : Nat
  liters : ℚ
  date : DateYMD
  time : Option String := none
  category : Option String := none
  location : Option String := none
  description : Option String := none
deriving DecidableEq

/-- One recorded water utility bill (interface `Bill`). -/
structure Bill where
  id : String
  amount : ℚ
  date : DateYMD
  consumptionLiters : ℚ
  currency : Option String := none
deriving DecidableEq

/-- Priority levels used by opportunities and recommendations. -/
inductive Priority where
  | high
  | medium
  | low
deriving DecidableEq

/-- Derived entry of `analyzeUsagePatterns` (interface `UsagePattern`;
`peakHours` is declared optional in the source and never populated). -/
structure UsagePattern where
  dayOfWeek : String
  averageUsage : ℚ
  peakHours : Option (List Nat) := none
deriving DecidableEq

/-- Derived entry of `calculateMonthlyTrends` (interface `MonthlyTrend`). -/
structure MonthlyTrend where
  month : String
  totalUsage : ℚ
  totalCost : ℚ
  averageDaily : ℚ
deriving DecidableEq

/-- Derived entry of `identifySavingsOpportunities`
(interface `WaterSavingsOpportunity`). -/
structure WaterSavingsOpportunity where
  category : String
  currentUsage : ℚ
  recommendedUsage : ℚ
  potentialSavings : ℚ
  priority : Priority
  description : String
deriving DecidableEq

/-- Snapshot of the two repository reads used by the analytics module:
`getAllUsage()` and `getAllBills()`, each of which either yields all rows or
throws (`Except.error`). -/
structure Repo where
  usage : Except Unit (List Usage)
  bills : Except Unit (List Bill)

/-! ## Month keys (string rendering and JavaScript string comparison) -/

/-- Decimal rendering of a natural number as its digit characters
(the template-literal interpolation of a number in the source). -/
def natToChars (n : Nat) : List Char :=
  if _h : n < 10 then [Nat.digitChar n]
  else natToChars (n / 10) ++ [Nat.digitChar (n % 10)]
decreasing_by exact Nat.div_lt_self (by omega) (by omega)

/-- Model of `String.prototype.padStart(2, '0')`. -/
def padStart2 (s : List Char) : List Char :=
  List.replicate (2 - s.length) '0' ++ s

/-- The month key built by `calculateMonthlyTrends`:
`` `${date.getFullYear()}-${String(date.getMonth() + 1).padStart(2, '0')}` ``. -/
def monthKey (d : DateYMD) : String :=
  ⟨natToChars d.year ++ '-' :: padStart2 (natToChars d.month)⟩

/-- JavaScript default string comparison (`<` on UTF-16 code units;
all characters appearing in month keys are single code units). -/
def chLt : List Char → List Char → Bool
  | _, [] => false
  | [], _ :: _ => true
  | a :: as, b :: bs =>
    if a.toNat < b.toNat then true
    else if b.toNat < a.toNat then false
    else chLt as bs

/-- The ordering used to model `Array.prototype.sort()` on strings:
`a` may precede `b` iff `b` is not strictly smaller. -/
def keyLe (a b : String) : Prop := chLt b.data a.data = false

instance : DecidableRel keyLe := fun _ _ =>
  inferInstanceAs (Decidable (_ = false))

/-- Strict JavaScript string order on month keys. -/
def keyLt (a b : String) : Prop := chLt a.data b.data = true

/-! ## Pattern Analyzer (`analyzeUsagePatterns`) -/

/-- The day names array of `analyzeUsagePatterns`. -/
def dayNames : List String :=
  ["Sunday", "Monday", "Tuesday", "Wednesday", "Thursday", "Friday", "Saturday"]

/-- The entry `dayMap[i]`: the liters of all events falling on weekday `i`,
in event order. -/
def dayLiters (usage : List Usage) (i : Nat) : List ℚ :=
  (usage.filter (fun u => u.date.getDay == i)).map (fun u => u.liters)

/-- Number of events on weekday `i`. -/
def dayCount (usage : List Usage) (i : Nat) : Nat :=
  (dayLiters usage i).length

/-- Summed liters of the events on weekday `i`. -/
def daySum (usage : List Usage) (i : Nat) : ℚ :=
  (dayLiters usage i).sum

/-- The grouping-and-averaging body of `analyzeUsagePatterns` (the part after
the successful `getAllUsage()` read): for `i = 0..6`, if `dayMap[i]` is
nonempty, push the pattern with its arithmetic mean. -/
def analyzeUsagePatternsPure (usage : List Usage) : List UsagePattern :=
  (List.range 7).filterMap (fun i =>
    if 0 < (dayLiters usage i).length then
      some { dayOfWeek := dayNames.getD i "",
             averageUsage := (dayLiters usage i).sum / ((dayLiters usage i).length : ℚ) }
    else none)

/-- Function `analyzeUsagePatterns()`: any failure of the `getAllUsage()` read is
caught and degraded to the empty list. -/
def analyzeUsagePatterns (r : Repo) : List UsagePattern :=
  match r.usage with
  | .ok usage => analyzeUsagePatternsPure usage
  | .error _ => []

/-! ## Trend Aggregator (`calculateMonthlyTrends`) -/

/-- Summed liters of the usage events whose month key is `k`
(`monthMap[k].usage`). -/
def monthUsage (usage : List Usage) (k : String) : ℚ :=
  ((usage.filter (fun u => monthKey u.date == k)).map (fun u => u.liters)).sum

/-- Summed amounts of the bills whose month key is `k` (`monthMap[k].cost`). -/
def monthCost (bills : List Bill) (k : String) : ℚ :=
  ((bills.filter (fun b => monthKey b.date == k)).map (fun b => b.amount)).sum

/-- The divisor `monthMap[k].days.size || 1`: the count of distinct dates with a usage
event in month `k`, defaulted to `1` when zero. -/
def monthDays (usage : List Usage) (k : String) : Nat :=
  let s := ((usage.filter (fun u => monthKey u.date == k)).map (fun u => u.date)).dedup.length
  if s = 0 then 1 else s

/-- The month keys carrying any usage or bill activity, in insertion order
of `monthMap` (usage rows first, then bill rows). -/
def activityKeys (usage : List Usage) (bills : List Bill) : List String :=
  usage.map (fun u => monthKey u.date) ++ bills.map (fun b => monthKey b.date)

/-- The aggregation body of `calculateMonthlyTrends(months)` after the reads
succeed: group by month key, sort the keys (`Object.keys(monthMap).sort()`),
keep the last `months` of them (`slice(-months)`), and build one
`MonthlyTrend` per kept key. -/
def calculateMonthlyTrendsPure (months : Nat) (usage : List Usage)
    (bills : List Bill) : List MonthlyTrend :=
  let sorted := List.insertionSort keyLe (activityKeys usage bills).dedup
  (sorted.drop (sorted.length - months)).map (fun k =>
    { month := k,
      totalUsage := monthUsage usage k,
      totalCost := monthCost bills k,
      averageDaily := monthUsage usage k / (monthDays usage k : ℚ) })

/-- Function `calculateMonthlyTrends(months)`: a failure of either read
(`Promise.all([getAllUsage(), getAllBills()])`) is caught and degraded to the
empty list. -/
def calculateMonthlyTrends (months : Nat) (r : Repo) : List MonthlyTrend :=
  match r.usage, r.bills with
  | .ok usage, .ok bills => calculateMonthlyTrendsPure months usage bills
  | _, _ => []

/-! ## Opportunity Identifier (`identifySavingsOpportunities`) -/

/-- The `priorityOrder` map of the final sort comparator. -/
def priorityOrder : Priority → Nat
  | .high => 0
  | .medium => 1
  | .low => 2

/-- Total liters over all usage events. -/
def totalLiters (usage : List Usage) : ℚ :=
  (usage.map (fun u => u.liters)).sum

/-- Count of distinct dates carrying at least one usage event
(`new Set(usage.map(u => u.date)).size`). -/
def distinctDays (usage : List Usage) : Nat :=
  (usage.map (fun u => u.date)).dedup.length

/-- The overall daily average `totalUsage / days`. -/
def dailyAverage (usage : List Usage) : ℚ :=
  totalLiters usage / (distinctDays usage : ℚ)

/-- The body of `identifySavingsOpportunities()` after a successful read:
early-return on no events, else evaluate the four fixed heuristics against
the overall daily average and sort the triggered ones by priority rank. -/
def identifySavingsOpportunitiesPure (usage : List Usage) :
    List WaterSavingsOpportunity :=
  if usage.length = 0 then []
  else
    let dailyAvg := dailyAverage usage
    let showerUsage := dailyAvg * 0.35
    let toiletUsage := dailyAvg * 0.27
    let kitchenUsage := dailyAvg * 0.20
    let opportunities :=
      (if showerUsage > 50 then
        [{ category := "Shower & Bath",
           currentUsage := showerUsage,
           recommendedUsage := 40,
           potentialSavings := (showerUsage - 40) * 30,
           priority := Priority.high,
           description := "Reduce shower time to 5 minutes or install low-flow showerheads" }]
       else []) ++
      (if toiletUsage > 30 then
        [{ category := "Toilet",
           currentUsage := toiletUsage,
           recommendedUsage := 24,
           potentialSavings := (toiletUsage - 24) * 30,
           priority := Priority.medium,
           description := "Install dual-flush toilet system or check for leaks" }]
       else []) ++
      (if kitchenUsage > 20 then
        [{ category := "Kitchen",
           currentUsage := kitchenUsage,
           recommendedUsage := 15,
           potentialSavings := (kitchenUsage - 15) * 30,
           priority := Priority.medium,
           description := "Use dishwasher efficiently, don\x27t pre-rinse dishes" }]
       else []) ++
      (if dailyAvg > 150 then
        [{ category := "General",
           currentUsage := dailyAvg,
           recommendedUsage := 100,
           potentialSavings := (dailyAvg - 100) * 30,
           priority := Priority.high,
           description := "Check for leaks and review all water-using activities" }]
       else [])
    List.insertionSort
      (fun a b => priorityOrder a.priority ≤ priorityOrder b.priority)
      opportunities

/-- Function `identifySavingsOpportunities()`: a failure of the `getAllUsage()` read is
caught and degraded to the empty list. -/
def identifySavingsOpportunities (r : Repo) : List WaterSavingsOpportunity :=
  match r.usage with
  | .ok usage => identifySavingsOpportunitiesPure usage
  | .error _ => []

/-! ## Report Facade (`generateUsageReport`) -/

/-- The consolidated report structure. -/
structure ReportSummary where
  totalDays : Nat
  totalUsage : ℚ
  averageDaily : ℚ
  totalCost : ℚ
deriving DecidableEq

/-- Return type of `generateUsageReport`. -/
structure UsageReport where
  summary : ReportSummary
  patterns : List UsagePattern
  trends : List MonthlyTrend
  opportunities : List WaterSavingsOpportunity
deriving DecidableEq

/-- Function `generateUsageReport()`: the direct `getAllUsage()` / `getAllBills()`
reads are awaited alongside the three (internally error-catching) analyses;
a read failure is rethrown to the caller, otherwise the summary is computed
with an explicit divide-by-zero guard. -/
def generateUsageReport (r : Repo) : Except Unit UsageReport :=
  match r.usage, r.bills with
  | .ok usage, .ok bills =>
    .ok { summary :=
            { totalDays := distinctDays usage,
              totalUsage := totalLiters usage,
              averageDaily :=
                if 0 < distinctDays usage then
                  totalLiters usage / (distinctDays usage : ℚ)
                else 0,
              totalCost := (bills.map (fun b => b.amount)).sum },
          patterns := analyzeUsagePatternsPure usage,
          trends := calculateMonthlyTrendsPure 6 usage bills,
          opportunities := identifySavingsOpportunitiesPure usage }
  | .error e, _ => .error e
  | _, .error e => .error e

/-! ## Recommendation Composer (src/app/services/ai/waterAdvisor.ts) -/

/-- Model of `Number.prototype.toFixed(d)`: render with `d` decimal digits, rounding
half away from zero (exact for the rational values reached here). -/
def qToFixed (q : ℚ) (d : Nat) : String :=
  let scaled : ℚ := q * ((10 : ℚ) ^ d)
  let n : Int := if 0 ≤ scaled then ⌊scaled + 1/2⌋ else -⌊-scaled + 1/2⌋
  let s := toString n.natAbs
  let s := if s.length < d + 1 then
      String.mk (List.replicate (d + 1 - s.length) '0') ++ s
    else s
  let sign := if n < 0 then "-" else ""
  if d = 0 then sign ++ s
  else
    sign ++ String.mk (s.data.take (s.length - d)) ++ "." ++
      String.mk (s.data.drop (s.length - d))

/-- Weather reading returned by `getCurrentWeather` (interface `WeatherData`
of src/app/services/api/openMeteo.ts). -/
structure WeatherData where
  latitude : ℚ
  longitude : ℚ
  temperature : ℚ
  humidity : ℚ
  precipitation : ℚ
  windSpeed : ℚ
  weatherCode : Nat
deriving DecidableEq

/-- The three usage-store aggregates the advisor reads
(`getTotalUsageByDate(today)`, `getAverageDailyUsage(30)`,
`getAverageDailyUsage(7)`), taken from one store snapshot. -/
structure UsageSignals where
  todayUsage : ℚ
  avg30 : ℚ
  avg7 : ℚ
deriving DecidableEq

/-- Environment of `generateRecommendations`: the usage-store read, the
bill-store read, and the combined location + weather fetch, each of which
either succeeds or throws. -/
structure AdvisorEnv where
  usageDb : Except Unit UsageSignals
  billsDb : Except Unit (List Bill)
  weatherSrc : Except Unit WeatherData

/-- Trend classification of `getUserUsageAnalysis`. -/
inductive Trend where
  | increasing
  | decreasing
  | stable
deriving DecidableEq

/-- Result record of `getUserUsageAnalysis`. -/
structure UsageAnalysis where
  todayUsage : ℚ
  avgDailyUsage : ℚ
  comparisonToRecommended : ℚ
  trend : Trend
deriving DecidableEq

/-- Result record of `getBillsAnalysis`. -/
structure BillsAnalysis where
  totalConsumption : ℚ
  averageCostPerLiter : ℚ
  billCount : Nat
deriving DecidableEq

/-- Result record of `getRegionalWaterContext`. -/
structure RegionalContext where
  temperature : ℚ
  humidity : ℚ
  precipitation : ℚ
  recommendation : String
deriving DecidableEq

/-- Recommendation type tag. -/
inductive RecType where
  | usage
  | savings
  | regional
  | bill
deriving DecidableEq

/-- Interface `AdvisorRecommendation`. -/
structure AdvisorRecommendation where
  type : RecType
  priority : Priority
  title : String
  message : String
  actionable : String
  potentialSavings : Option ℚ := none
deriving DecidableEq

/-- Constant `RECOMMENDED_DAILY_USAGE` (liters per person per day). -/
def RECOMMENDED_DAILY_USAGE : ℚ := 100

/-- The pure computation of `getUserUsageAnalysis` on a successful snapshot:
comparison to the recommended target and 7-vs-30-day trend classification. -/
def usageAnalysisOf (s : UsageSignals) : UsageAnalysis :=
  let avgDailyUsage := s.avg30
  let comparisonToRecommended :=
    (avgDailyUsage - RECOMMENDED_DAILY_USAGE) / RECOMMENDED_DAILY_USAGE * 100
  let recentAvg := s.avg7
  let olderAvg := s.avg30
  let trend : Trend :=
    if recentAvg > olderAvg * 1.1 then .increasing
    else if recentAvg < olderAvg * 0.9 then .decreasing
    else .stable
  { todayUsage := s.todayUsage,
    avgDailyUsage := avgDailyUsage,
    comparisonToRecommended := comparisonToRecommended,
    trend := trend }

/-- Function `getUserUsageAnalysis()`: propagates a usage-store failure. -/
def getUserUsageAnalysis (env : AdvisorEnv) : Except Unit UsageAnalysis :=
  env.usageDb.map usageAnalysisOf

/-- The pure computation of `getBillsAnalysis` on a successful snapshot:
`totalConsumption` is `getTotalConsumption()` (the SQL sum of
`consumptionLiters`), `totalCost` the sum of bill amounts, and the average
cost per liter is zero-guarded. -/
def billsAnalysisOf (bills : List Bill) : BillsAnalysis :=
  let totalConsumption := (bills.map (fun b => b.consumptionLiters)).sum
  let totalCost := (bills.map (fun b => b.amount)).sum
  { totalConsumption := totalConsumption,
    averageCostPerLiter :=
      if 0 < totalConsumption then totalCost / totalConsumption else 0,
    billCount := bills.length }

/-- Function `getBillsAnalysis()`: propagates a bill-store failure. -/
def getBillsAnalysis (env : AdvisorEnv) : Except Unit BillsAnalysis :=
  env.billsDb.map billsAnalysisOf

/-- Function `getRegionalWaterContext()`: on a successful fetch, classify the weather;
on any location/weather failure, catch and substitute the zero-valued
reading with the fixed unavailable text. Never throws. -/
def getRegionalWaterContext (env : AdvisorEnv) : RegionalContext :=
  match env.weatherSrc with
  | .ok weather =>
    let recommendation :=
      if weather.precipitation < 1 ∧ weather.humidity < 40 then
        "Low rainfall and humidity detected. Consider reducing outdoor water usage."
      else if weather.precipitation > 10 then
        "Good rainfall! Perfect time to collect rainwater for later use."
      else if weather.temperature > 30 then
        "High temperatures increase water evaporation. Water plants early morning or late evening."
      else
        "Weather conditions are normal. Maintain regular water conservation practices."
    { temperature := weather.temperature,
      humidity := weather.humidity,
      precipitation := weather.precipitation,
      recommendation := recommendation }
  | .error _ =>
    { temperature := 0,
      humidity := 0,
      precipitation := 0,
      recommendation := "Unable to fetch regional weather data." }

/-- The high-priority usage recommendation pushed when the 30-day average
exceeds the recommended 100 L. -/
def usageHighRec (avg comparison : ℚ) : AdvisorRecommendation :=
  { type := .usage,
    priority := .high,
    title := "Reduce Daily Water Usage",
    message := "Your average daily usage is " ++ qToFixed avg 1 ++
      "L, which is " ++ qToFixed comparison 0 ++
      "% above the recommended 100L per day.",
    actionable := "Try reducing shower time by 2-3 minutes and fix any leaking faucets.",
    potentialSavings := some ((avg - RECOMMENDED_DAILY_USAGE) * 30) }

/-- The low-priority congratulatory usage recommendation pushed otherwise. -/
def usageLowRec (avg : ℚ) : AdvisorRecommendation :=
  { type := .usage,
    priority := .low,
    title := "Excellent Water Conservation!",
    message := "Your daily average of " ++ qToFixed avg 1 ++
      "L is within recommended limits.",
    actionable := "Keep up the great work! Share your water-saving tips with others." }

/-- The medium-priority trend alert pushed when the trend is increasing. -/
def trendAlertRec : AdvisorRecommendation :=
  { type := .usage,
    priority := .medium,
    title := "Usage Trend Alert",
    message := "Your water usage has been increasing over the past week.",
    actionable := "Review your recent activities and identify opportunities to reduce consumption." }

/-- The high-priority regional recommendation pushed when precipitation is
below 1 mm. -/
def regionalAlertRec (precipitation : ℚ) : AdvisorRecommendation :=
  { type := .regional,
    priority := .high,
    title := "Low Rainfall in Your Area",
    message := "Current precipitation: " ++ qToFixed precipitation 1 ++
      "mm. Your region is experiencing dry conditions.",
    actionable := "Limit outdoor watering to early morning only and consider rainwater harvesting for future use." }

/-- The medium-priority cost recommendation pushed when the average cost per
liter exceeds 0.01. -/
def costRec (costPerLiter : ℚ) : AdvisorRecommendation :=
  { type := .bill,
    priority := .medium,
    title := "Reduce Water Costs",
    message := "Your average cost is $" ++ qToFixed costPerLiter 4 ++ " per liter.",
    actionable := "Reducing usage by 1000L monthly could save you $" ++
      qToFixed (costPerLiter * 1000) 2 ++ ".",
    potentialSavings := some (costPerLiter * 1000) }

/-- The single low-priority onboarding recommendation pushed by the `catch`
block of `generateRecommendations`. -/
def startTrackingRec : AdvisorRecommendation :=
  { type := .usage,
    priority := .low,
    title := "Start Tracking",
    message := "Add your water usage and bills to get personalized recommendations.",
    actionable := "Tap on \"Add Usage\" or \"Water Bills\" to start tracking your water consumption." }

/-- Function `generateRecommendations()`: awaits the usage analysis, then the bills
analysis, then the (non-throwing) regional context, and pushes the four
conditional recommendations in source order; a failure of the usage or bill
read reaches the `catch` block, which pushes only the onboarding
recommendation. Never throws. -/
def generateRecommendations (env : AdvisorEnv) : List AdvisorRecommendation :=
  match getUserUsageAnalysis env, getBillsAnalysis env with
  | .ok usageAnalysis, .ok billsAnalysis =>
    let regionalContext := getRegionalWaterContext env
    (if usageAnalysis.avgDailyUsage > RECOMMENDED_DAILY_USAGE then
        [usageHighRec usageAnalysis.avgDailyUsage usageAnalysis.comparisonToRecommended]
      else
        [usageLowRec usageAnalysis.avgDailyUsage]) ++
    (if usageAnalysis.trend = Trend.increasing then [trendAlertRec] else []) ++
    (if regionalContext.precipitation < 1 then
        [regionalAlertRec regionalContext.precipitation]
      else []) ++
    (if billsAnalysis.averageCostPerLiter > 0.01 then
        [costRec billsAnalysis.averageCostPerLiter]
      else [])
  | _, _ => [startTrackingRec]

/-! ## Claim theorems -/

/-- C2: `generateUsageReport()` raises a failure to its caller exactly when
the usage or bill repository read fails; with successful reads and zero rows
it returns the normal zeroed/empty report instead of raising — whereas
`analyzeUsagePatterns`, `calculateMonthlyTrends` and
`identifySavingsOpportunities` catch any read failure and return `[]`. -/
theorem claim2_report_failure_semantics :
    (∀ r : Repo, (generateUsageReport r).isOk = (r.usage.isOk && r.bills.isOk))
    ∧ generateUsageReport ⟨.ok [], .ok []⟩ =
        .ok { summary := { totalDays := 0, totalUsage := 0, averageDaily := 0, totalCost := 0 },
              patterns := [], trends := [], opportunities := [] }
    ∧ (∀ (e : Unit) (b : Except Unit (List Bill)),
        analyzeUsagePatterns ⟨.error e, b⟩ = [])
    ∧ (∀ (m : Nat) (e : Unit) (u : Except Unit (List Usage)) (b : Except Unit (List Bill)),
        calculateMonthlyTrends m ⟨.error e, b⟩ = []
        ∧ calculateMonthlyTrends m ⟨u, .error e⟩ = [])
    ∧ (∀ (e : Unit) (b : Except Unit (List Bill)),
        identifySavingsOpportunities ⟨.error e, b⟩ = []) := by
  refine ⟨?_, ?_, ?_, ?_, ?_⟩
  · rintro ⟨u, b⟩
    cases u <;> cases b <;> rfl
  · rfl
  · intro e b
    rfl
  · intro m e u b
    exact ⟨rfl, by cases u <;> rfl⟩
  · intro e b
    rfl

/-- C7: `identifySavingsOpportunities()` on an empty usage set returns the
empty list, and whenever usage events exist the distinct-day divisor of the
daily average is at least 1 (the division is never performed with a zero
divisor). -/
theorem claim7_empty_and_divisor :
    identifySavingsOpportunitiesPure [] = []
    ∧ (∀ b : Except Unit (List Bill), identifySavingsOpportunities ⟨.ok [], b⟩ = [])
    ∧ ∀ u : List Usage, u ≠ [] → 1 ≤ distinctDays u := by
  refine ⟨rfl, fun _ => rfl, ?_⟩
  intro u hu
  have hmap : u.map (fun x => x.date) ≠ [] := by
    simpa using hu
  have hd : (u.map (fun x => x.date)).dedup ≠ [] := by
    simpa [List.dedup_eq_nil] using hmap
  have := List.length_pos.mpr hd
  simpa [distinctDays] using this

/-- Witness for C7 at a concrete one-event store. -/
theorem claim7_witness :
    ([{ id := 1, liters := 120, date := ⟨2024, 5, 2⟩ }] : List Usage) ≠ []
    ∧ 1 ≤ distinctDays [{ id := 1, liters := 120, date := ⟨2024, 5, 2⟩ }] :=
  ⟨by decide, claim7_empty_and_divisor.2.2 _ (by decide)⟩

/-- C8: the summary of `generateUsageReport()` satisfies: `totalDays` is the
number of distinct dates with a usage event, `totalUsage` the sum of event
liters, `totalCost` the sum of bill amounts, and `averageDaily` is
`totalUsage / totalDays` when `totalDays > 0` and exactly `0` when
`totalDays = 0` (the divide-by-zero is guarded, no NaN). -/
theorem claim8_report_summary (u : List Usage) (b : List Bill) :
    ∃ rep : UsageReport,
      generateUsageReport ⟨.ok u, .ok b⟩ = .ok rep
      ∧ rep.summary.totalDays = (u.map (fun x => x.date)).dedup.length
      ∧ rep.summary.totalUsage = (u.map (fun x => x.liters)).sum
      ∧ rep.summary.totalCost = (b.map (fun x => x.amount)).sum
      ∧ (0 < rep.summary.totalDays →
          rep.summary.averageDaily
            = rep.summary.totalUsage / (rep.summary.totalDays : ℚ))
      ∧ (rep.summary.totalDays = 0 → rep.summary.averageDaily = 0) := by
  refine ⟨_, rfl, rfl, rfl, rfl, ?_, ?_⟩
  · intro h
    simp only [generateUsageReport, distinctDays, totalLiters] at h ⊢
    rw [if_pos h]
  · intro h
    simp only [generateUsageReport, distinctDays, totalLiters] at h ⊢
    rw [if_neg (by omega)]

/-- Witness for C8 at a concrete store. -/
theorem claim8_witness :
    ∃ rep : UsageReport,
      generateUsageReport
          ⟨.ok [{ id := 1, liters := 80, date := ⟨2024, 5, 2⟩ }],
           .ok [{ id := "B1", amount := 12, date := ⟨2024, 5, 20⟩, consumptionLiters := 400 }]⟩
        = .ok rep
      ∧ rep.summary.totalDays
          = (([{ id := 1, liters := 80, date := ⟨2024, 5, 2⟩ }] : List Usage).map
              (fun x => x.date)).dedup.length
      ∧ rep.summary.totalUsage
          = (([{ id := 1, liters := 80, date := ⟨2024, 5, 2⟩ }] : List Usage).map
              (fun x => x.liters)).sum
      ∧ rep.summary.totalCost
          = (([{ id := "B1", amount := 12, date := ⟨2024, 5, 20⟩, consumptionLiters := 400 }] :
              List Bill).map (fun x => x.amount)).sum
      ∧ (0 < rep.summary.totalDays →
          rep.summary.averageDaily
            = rep.summary.totalUsage / (rep.summary.totalDays : ℚ))
      ∧ (rep.summary.totalDays = 0 → rep.summary.averageDaily = 0) :=
  claim8_report_summary _ _

/-- Pushing `some (g a)` under a decidable guard and collecting the results
is filtering then mapping. -/
theorem filterMap_ite_eq_map_filter {α β : Type _} (p : α → Prop) [DecidablePred p]
    (g : α → β) (l : List α) :
    l.filterMap (fun a => if p a then some (g a) else none)
      = (l.filter (fun a => decide (p a))).map g := by
  induction l with
  | nil => rfl
  | cons a t ih => by_cases h : p a <;> simp [h, ih]

/-- C6: `analyzeUsagePatterns()` returns one `UsagePattern` per weekday with
at least one event, in weekday order Sunday (0) through Saturday (6), each
carrying the arithmetic mean of that weekday's liters; weekdays with zero
events are omitted and the empty event set yields the empty list. -/
theorem claim6_weekday_patterns (u : List Usage) :
    analyzeUsagePatternsPure u
      = ((List.range 7).filter (fun i => decide (0 < dayCount u i))).map
          (fun i => { dayOfWeek := dayNames.getD i "",
                      averageUsage := daySum u i / (dayCount u i : ℚ),
                      peakHours := none })
    ∧ analyzeUsagePatternsPure [] = [] :=
  ⟨filterMap_ite_eq_map_filter _ _ _, rfl⟩

/-- C9: every pattern reported by `analyzeUsagePatterns()` round-trips: its
mean times the count of events on its weekday equals the summed liters of
that weekday. -/
theorem claim9_average_roundtrip (u : List Usage) :
    ∀ p ∈ analyzeUsagePatternsPure u,
      ∃ i, i < 7 ∧ p.dayOfWeek = dayNames.getD i ""
        ∧ p.averageUsage * (dayCount u i : ℚ) = daySum u i := by
  intro p hp
  simp only [analyzeUsagePatternsPure, List.mem_filterMap, List.mem_range] at hp
  obtain ⟨i, hi, hsome⟩ := hp
  by_cases h : 0 < (dayLiters u i).length
  · rw [if_pos h] at hsome
    obtain rfl := Option.some.inj hsome
    refine ⟨i, hi, rfl, ?_⟩
    show ((dayLiters u i).sum / ((dayLiters u i).length : ℚ))
        * (((dayLiters u i).length : Nat) : ℚ) = (dayLiters u i).sum
    rw [div_mul_cancel₀]
    exact Nat.cast_ne_zero.mpr (by omega)
  · rw [if_neg h] at hsome
    cases hsome

/-- Concrete evaluation used by the C9 witness: two Monday events of 100 L
and 200 L yield the single pattern with mean 150 L. -/
theorem mondayPatternEval :
    analyzeUsagePatternsPure
        [{ id := 1, liters := 100, date := ⟨2024, 1, 1⟩ },
         { id := 2, liters := 200, date := ⟨2024, 1, 8⟩ }]
      = [{ dayOfWeek := "Monday", averageUsage := 150, peakHours := none }] := by
  have hr7 : List.range 7 = [0, 1, 2, 3, 4, 5, 6] := rfl
  rw [analyzeUsagePatternsPure, hr7]
  norm_num [dayLiters, DateYMD.getDay, sakTable, dayNames,
    List.filter_cons, List.filter_nil, List.filterMap_cons, List.filterMap_nil]

/-- Witness for C9: the Monday pattern of mean 150 L round-trips. -/
theorem claim9_witness :
    ({ dayOfWeek := "Monday", averageUsage := 150, peakHours := none } : UsagePattern)
      ∈ analyzeUsagePatternsPure
          [{ id := 1, liters := 100, date := ⟨2024, 1, 1⟩ },
           { id := 2, liters := 200, date := ⟨2024, 1, 8⟩ }]
    ∧ ∃ i, i < 7
        ∧ ({ dayOfWeek := "Monday", averageUsage := 150, peakHours := none } :
            UsagePattern).dayOfWeek = dayNames.getD i ""
        ∧ ({ dayOfWeek := "Monday", averageUsage := 150, peakHours := none } :
            UsagePattern).averageUsage
            * ((dayCount [{ id := 1, liters := 100, date := ⟨2024, 1, 1⟩ },
                          { id := 2, liters := 200, date := ⟨2024, 1, 8⟩ }] i : Nat) : ℚ)
          = daySum [{ id := 1, liters := 100, date := ⟨2024, 1, 1⟩ },
                    { id := 2, liters := 200, date := ⟨2024, 1, 8⟩ }] i :=
  ⟨by rw [mondayPatternEval]; exact List.mem_singleton.mpr rfl,
   claim9_average_roundtrip _ _ (by rw [mondayPatternEval]; exact List.mem_singleton.mpr rfl)⟩

/-- The "Shower & Bath" opportunity triggered at daily average 200 L. -/
def showerOpp200 : WaterSavingsOpportunity :=
  { category := "Shower & Bath", currentUsage := 70, recommendedUsage := 40,
    potentialSavings := 900, priority := Priority.high,
    description := "Reduce shower time to 5 minutes or install low-flow showerheads" }

/-- The "General" opportunity triggered at daily average 200 L. -/
def generalOpp200 : WaterSavingsOpportunity :=
  { category := "General", currentUsage := 200, recommendedUsage := 100,
    potentialSavings := 3000, priority := Priority.high,
    description := "Check for leaks and review all water-using activities" }

/-- C5: whenever the overall daily average is 200 L,
`identifySavingsOpportunities()` includes the "General" opportunity
(200 → 100, savings 3000, high) and the "Shower & Bath" opportunity
(70 → 40, savings 900, high), and every returned opportunity satisfies
`potentialSavings = (estimate − target) × 30`. -/
theorem claim5_savings_at_200 (u : List Usage) (h : dailyAverage u = 200) :
    generalOpp200 ∈ identifySavingsOpportunitiesPure u
    ∧ showerOpp200 ∈ identifySavingsOpportunitiesPure u
    ∧ ∀ o ∈ identifySavingsOpportunitiesPure u,
        o.potentialSavings = (o.currentUsage - o.recommendedUsage) * 30 := by
  have hne : ¬ u.length = 0 := by
    intro h0
    rw [List.length_eq_zero.mp h0] at h
    rw [dailyAverage, totalLiters, distinctDays] at h
    norm_num at h
  have hres : identifySavingsOpportunitiesPure u
      = [showerOpp200, generalOpp200,
         { category := "Toilet", currentUsage := 54, recommendedUsage := 24,
           potentialSavings := 900, priority := Priority.medium,
           description := "Install dual-flush toilet system or check for leaks" },
         { category := "Kitchen", currentUsage := 40, recommendedUsage := 15,
           potentialSavings := 750, priority := Priority.medium,
           description := "Use dishwasher efficiently, don\x27t pre-rinse dishes" }] := by
    rw [identifySavingsOpportunitiesPure, if_neg hne]
    simp only [h]
    norm_num [List.insertionSort, List.orderedInsert, priorityOrder,
      showerOpp200, generalOpp200]
  rw [hres]
  refine ⟨by simp, by simp, ?_⟩
  intro o ho
  simp only [List.mem_cons, List.mem_singleton, List.not_mem_nil, or_false] at ho
  rcases ho with rfl | rfl | rfl | rfl <;>
    norm_num [showerOpp200, generalOpp200]

/-- Witness for C5 at a single 200 L event. -/
theorem claim5_witness :
    dailyAverage [{ id := 1, liters := 200, date := ⟨2024, 1, 1⟩ }] = 200
    ∧ generalOpp200
        ∈ identifySavingsOpportunitiesPure [{ id := 1, liters := 200, date := ⟨2024, 1, 1⟩ }]
    ∧ showerOpp200
        ∈ identifySavingsOpportunitiesPure [{ id := 1, liters := 200, date := ⟨2024, 1, 1⟩ }]
    ∧ ∀ o ∈ identifySavingsOpportunitiesPure [{ id := 1, liters := 200, date := ⟨2024, 1, 1⟩ }],
        o.potentialSavings = (o.currentUsage - o.recommendedUsage) * 30 := by
  have havg : dailyAverage [{ id := 1, liters := 200, date := ⟨2024, 1, 1⟩ }] = 200 := by
    norm_num [dailyAverage, totalLiters, distinctDays]
  exact ⟨havg, claim5_savings_at_200 _ havg⟩

/-- A store state in which the usage and bill reads succeed (with no data)
while the location/weather fetch throws. -/
def envWeatherFail : AdvisorEnv :=
  { usageDb := .ok { todayUsage := 0, avg30 := 0, avg7 := 0 },
    billsDb := .ok [],
    weatherSrc := .error () }

/-- Counterexample to C1 as stated: when only the weather read throws, the
result is not the single onboarding recommendation — the composer proceeds
normally with a zero-valued reading and returns two recommendations (the
congratulatory usage recommendation and a regional drought alert). -/
theorem claim1_counterexample :
    envWeatherFail.weatherSrc = .error ()
    ∧ generateRecommendations envWeatherFail = [usageLowRec 0, regionalAlertRec 0]
    ∧ generateRecommendations envWeatherFail ≠ [startTrackingRec]
    ∧ (generateRecommendations envWeatherFail).length = 2 := by
  have hres : generateRecommendations envWeatherFail = [usageLowRec 0, regionalAlertRec 0] := by
    rw [generateRecommendations]
    norm_num [envWeatherFail, getUserUsageAnalysis, getBillsAnalysis,
      getRegionalWaterContext, Except.map, usageAnalysisOf, billsAnalysisOf,
      RECOMMENDED_DAILY_USAGE]
    decide
  refine ⟨rfl, hres, ?_, by rw [hres]; rfl⟩
  rw [hres]
  simp [usageLowRec, startTrackingRec]

/-- C1 (amended): `generateRecommendations()` always returns at least one
recommendation and never raises; when the usage-store or bill-store read
throws, the error is caught and the result is exactly the single low-priority
`usage` onboarding recommendation. (A failure of the weather read alone is
caught inside the regional-context provider and substituted with a
zero-valued reading; the composer then proceeds normally.) -/
theorem claim1_amended (env : AdvisorEnv) :
    1 ≤ (generateRecommendations env).length
    ∧ ((env.usageDb.isOk = false ∨ env.billsDb.isOk = false) →
        generateRecommendations env = [startTrackingRec]) := by
  obtain ⟨u, b, w⟩ := env
  constructor
  · cases u <;> cases b <;>
      simp only [generateRecommendations, getUserUsageAnalysis, getBillsAnalysis,
        Except.map, List.length_cons, List.length_nil] <;>
      first
        | omega
        | (split_ifs <;> simp)
  · intro h
    cases u <;> cases b <;>
      simp_all [generateRecommendations, getUserUsageAnalysis, getBillsAnalysis,
        Except.map, Except.isOk, Except.toBool]

/-- Witness for C1 at the state where all three reads throw. -/
theorem claim1_witness :
    1 ≤ (generateRecommendations ⟨.error (), .error (), .error ()⟩).length
    ∧ generateRecommendations ⟨.error (), .error (), .error ()⟩ = [startTrackingRec] :=
  ⟨(claim1_amended ⟨.error (), .error (), .error ()⟩).1,
   (claim1_amended ⟨.error (), .error (), .error ()⟩).2 (Or.inl rfl)⟩

/-- A bill of amount 2 against 100 L of consumption: cost per liter 0.02. -/
def billB1 : Bill :=
  { id := "B1", amount := 2, date := ⟨2024, 1, 15⟩, consumptionLiters := 100 }

/-- A store state realizing the preconditions of C4: average cost per liter
0.02, 30-day average 50 L (at the target), stable trend, 5 mm precipitation. -/
def envCost : AdvisorEnv :=
  { usageDb := .ok { todayUsage := 0, avg30 := 50, avg7 := 50 },
    billsDb := .ok [billB1],
    weatherSrc := .ok { latitude := 0, longitude := 0, temperature := 20, humidity := 50,
                        precipitation := 5, windSpeed := 0, weatherCode := 0 } }

/-- Counterexample to C4 as stated: in the state `envCost` (cost per liter
0.02 and no other trigger) `generateRecommendations()` returns two
recommendations, not exactly one — the always-present usage recommendation
(here the low-priority congratulatory one) precedes the cost one. -/
theorem claim4_counterexample :
    (billsAnalysisOf [billB1]).averageCostPerLiter = 0.02
    ∧ generateRecommendations envCost = [usageLowRec 50, costRec 0.02]
    ∧ (generateRecommendations envCost).length ≠ 1 := by
  have hcost : (billsAnalysisOf [billB1]).averageCostPerLiter = 0.02 := by
    norm_num [billsAnalysisOf, billB1]
  have hres : generateRecommendations envCost = [usageLowRec 50, costRec 0.02] := by
    rw [generateRecommendations]
    norm_num [envCost, billB1, getUserUsageAnalysis, getBillsAnalysis,
      getRegionalWaterContext, Except.map, usageAnalysisOf, billsAnalysisOf,
      RECOMMENDED_DAILY_USAGE]
    decide
  exact ⟨hcost, hres, by rw [hres]; simp⟩

/-- C4 (amended): in any state where the average cost per liter is 0.02 and
no other trigger holds (30-day average at or below 100 L, trend not
increasing, precipitation at or above 1 mm), `generateRecommendations()`
returns exactly two recommendations: the low-priority congratulatory usage
recommendation followed by the `bill` cost recommendation with
`potentialSavings = 20`. -/
theorem claim4_amended (env : AdvisorEnv) (s : UsageSignals) (bs : List Bill)
    (w : WeatherData)
    (hu : env.usageDb = .ok s) (hb : env.billsDb = .ok bs)
    (hw : env.weatherSrc = .ok w) (hp : 1 ≤ w.precipitation)
    (h30 : s.avg30 ≤ 100) (htr : ¬ s.avg7 > s.avg30 * 1.1)
    (hc : (billsAnalysisOf bs).averageCostPerLiter = 0.02) :
    generateRecommendations env = [usageLowRec s.avg30, costRec 0.02]
    ∧ (costRec 0.02).potentialSavings = some 20 := by
  constructor
  · rw [generateRecommendations, getUserUsageAnalysis, getBillsAnalysis, hu, hb,
      getRegionalWaterContext, hw]
    simp only [Except.map, usageAnalysisOf, RECOMMENDED_DAILY_USAGE, hc]
    rw [if_neg (not_lt.mpr h30), if_neg htr, if_neg (not_lt.mpr hp),
      if_pos (by norm_num : (0.02 : ℚ) > 0.01)]
    split_ifs <;> simp_all
  · show some ((0.02 : ℚ) * 1000) = some 20
    norm_num

/-- Witness for C4 at the concrete state `envCost`. -/
theorem claim4_witness :
    generateRecommendations envCost = [usageLowRec 50, costRec 0.02]
    ∧ (costRec 0.02).potentialSavings = some 20 :=
  claim4_amended envCost { todayUsage := 0, avg30 := 50, avg7 := 50 } [billB1]
    { latitude := 0, longitude := 0, temperature := 20, humidity := 50,
      precipitation := 5, windSpeed := 0, weatherCode := 0 }
    rfl rfl rfl (by norm_num) (by norm_num)
    (by norm_num) (by norm_num [billsAnalysisOf, billB1])

/-- The all-zero weather reading a genuine drought report would carry. -/
def zeroWeather : WeatherData :=
  { latitude := 0, longitude := 0, temperature := 0, humidity := 0,
    precipitation := 0, windSpeed := 0, weatherCode := 0 }

/-- C10: when the location/weather fetch fails (and the usage and bill reads
succeed), `getRegionalWaterContext()` substitutes a zero-valued reading, and
since 0 mm is below the 1 mm threshold `generateRecommendations()` emits the
high-priority regional "Low Rainfall in Your Area" recommendation reporting
0.0 mm — and the whole output is identical to that produced by a genuine
all-zero weather reading. -/
theorem claim10_weather_unavailable_drought (env : AdvisorEnv) (s : UsageSignals)
    (bs : List Bill)
    (hu : env.usageDb = .ok s) (hb : env.billsDb = .ok bs)
    (hw : env.weatherSrc = .error ()) :
    regionalAlertRec 0 ∈ generateRecommendations env
    ∧ (regionalAlertRec 0).type = .regional
    ∧ (regionalAlertRec 0).priority = .high
    ∧ (regionalAlertRec 0).title = "Low Rainfall in Your Area"
    ∧ (regionalAlertRec 0).message
        = "Current precipitation: 0.0mm. Your region is experiencing dry conditions."
    ∧ generateRecommendations env
        = generateRecommendations { env with weatherSrc := .ok zeroWeather } := by
  have hmsg : qToFixed 0 1 = "0.0" := by norm_num [qToFixed]; rfl
  refine ⟨?_, rfl, rfl, rfl, ?_, ?_⟩
  · rw [generateRecommendations, getUserUsageAnalysis, getBillsAnalysis, hu, hb,
      getRegionalWaterContext, hw]
    simp only [Except.map]
    rw [if_pos (by norm_num : (0 : ℚ) < 1)]
    simp [List.mem_append]
  · show "Current precipitation: " ++ qToFixed 0 1
        ++ "mm. Your region is experiencing dry conditions."
      = "Current precipitation: 0.0mm. Your region is experiencing dry conditions."
    rw [hmsg]
    rfl
  · rw [generateRecommendations, generateRecommendations]
    rw [getUserUsageAnalysis, getUserUsageAnalysis, getBillsAnalysis, getBillsAnalysis]
    show _ = _
    simp only [hu, hb, hw, getRegionalWaterContext, zeroWeather]

/-- Witness for C10 at a concrete store with failing weather fetch. -/
theorem claim10_witness :
    regionalAlertRec 0
      ∈ generateRecommendations ⟨.ok ⟨0, 0, 0⟩, .ok [], .error ()⟩
    ∧ (regionalAlertRec 0).type = .regional
    ∧ (regionalAlertRec 0).priority = .high
    ∧ (regionalAlertRec 0).title = "Low Rainfall in Your Area"
    ∧ (regionalAlertRec 0).message
        = "Current precipitation: 0.0mm. Your region is experiencing dry conditions."
    ∧ generateRecommendations ⟨.ok ⟨0, 0, 0⟩, .ok [], .error ()⟩
        = generateRecommendations
            { (⟨.ok ⟨0, 0, 0⟩, .ok [], .error ()⟩ : AdvisorEnv) with
              weatherSrc := .ok zeroWeather } :=
  claim10_weather_unavailable_drought _ _ _ rfl rfl rfl

/-! ## Order lemmas for the JavaScript string comparison -/

/-- The comparison `chLt` is asymmetric. -/
theorem chLt_asymm : ∀ a b : List Char, chLt a b = true → chLt b a = false := by
  intro a
  induction a with
  | nil =>
    intro b h
    cases b <;> simp_all [chLt]
  | cons x xs ih =>
    intro b h
    cases b with
    | nil => simp [chLt] at h
    | cons y ys =>
      simp only [chLt] at h ⊢
      split_ifs at h ⊢ <;>
        first
          | rfl
          | omega
          | exact ih ys h

/-- The comparison `chLt` is transitive. -/
theorem chLt_trans : ∀ a b c : List Char,
    chLt a b = true → chLt b c = true → chLt a c = true := by
  intro a
  induction a with
  | nil =>
    intro b c h1 h2
    cases b <;> cases c <;> simp_all [chLt]
  | cons x xs ih =>
    intro b c h1 h2
    cases b with
    | nil => simp [chLt] at h1
    | cons y ys =>
      cases c with
      | nil => simp [chLt] at h2
      | cons z zs =>
        simp only [chLt] at h1 h2 ⊢
        split_ifs at h1 h2 ⊢ <;>
          first
            | rfl
            | omega
            | exact ih ys zs h1 h2

/-- Two lists that are not strictly ordered either way are equal. -/
theorem chLt_connex : ∀ a b : List Char,
    chLt a b = false → chLt b a = false → a = b := by
  intro a
  induction a with
  | nil =>
    intro b h1 _
    cases b with
    | nil => rfl
    | cons y ys => simp [chLt] at h1
  | cons x xs ih =>
    intro b h1 h2
    cases b with
    | nil => simp [chLt] at h2
    | cons y ys =>
      simp only [chLt] at h1 h2
      split_ifs at h1 h2 <;>
        first
          | simp at h1
          | simp at h2
          | (rename_i hxy hyx
             exact congrArg₂ (· :: ·)
               (Char.ext (UInt32.ext (by
                 simp only [Char.toNat] at hxy hyx; omega)))
               (ih ys h1 h2))

instance : IsTotal String keyLe := by
  constructor
  intro a b
  rcases h : chLt b.data a.data with _ | _
  · exact Or.inl h
  · exact Or.inr (chLt_asymm _ _ h)

instance : IsTrans String keyLe := by
  constructor
  intro a b c h1 h2
  rcases h : chLt c.data a.data with _ | _
  · exact h
  · exfalso
    rcases hab : chLt a.data b.data with _ | _
    · have heq : a.data = b.data := chLt_connex _ _ hab h1
      have h2' : chLt c.data b.data = false := h2
      rw [← heq] at h2'
      rw [h2'] at h
      cases h
    · have htr : chLt c.data b.data = true := chLt_trans _ _ _ h hab
      have h2' : chLt c.data b.data = false := h2
      rw [htr] at h2'
      cases h2'

/-- The order `keyLe` together with inequality gives the strict order. -/
theorem keyLt_of_keyLe_ne {a b : String} (hle : keyLe a b) (hne : a ≠ b) :
    keyLt a b := by
  rcases h : chLt a.data b.data with _ | _
  · exact absurd (congrArg String.mk (chLt_connex _ _ h hle)) hne
  · exact h

/-! ## Month keys of valid dates are chronologically ordered -/

/-- A date as stored by the app: four-digit year, month 1–12. -/
def ValidDate (d : DateYMD) : Prop :=
  1000 ≤ d.year ∧ d.year < 10000 ∧ 1 ≤ d.month ∧ d.month ≤ 12

instance (d : DateYMD) : Decidable (ValidDate d) :=
  inferInstanceAs (Decidable (_ ∧ _ ∧ _ ∧ _))

theorem natToChars_small {n : Nat} (h : n < 10) :
    natToChars n = [Nat.digitChar n] := by
  rw [natToChars]
  simp [h]

theorem natToChars_large {n : Nat} (h : 10 ≤ n) :
    natToChars n = natToChars (n / 10) ++ [Nat.digitChar (n % 10)] := by
  rw [natToChars]
  simp [Nat.not_lt.mpr h]

/-- The explicit seven characters of the month key of a valid date. -/
theorem monthKey_data {d : DateYMD} (h : ValidDate d) :
    (monthKey d).data
      = [Nat.digitChar (d.year / 1000), Nat.digitChar (d.year / 100 % 10),
         Nat.digitChar (d.year / 10 % 10), Nat.digitChar (d.year % 10), '-',
         Nat.digitChar (d.month / 10), Nat.digitChar (d.month % 10)] := by
  obtain ⟨h1, h2, h3, h4⟩ := h
  have hy : natToChars d.year
      = [Nat.digitChar (d.year / 1000), Nat.digitChar (d.year / 100 % 10),
         Nat.digitChar (d.year / 10 % 10), Nat.digitChar (d.year % 10)] := by
    rw [natToChars_large (by omega),
        natToChars_large (show 10 ≤ d.year / 10 by omega),
        natToChars_large (show 10 ≤ d.year / 10 / 10 by omega),
        natToChars_small (show d.year / 10 / 10 / 10 < 10 by omega)]
    simp [Nat.div_div_eq_div_mul]
  have hm : padStart2 (natToChars d.month)
      = [Nat.digitChar (d.month / 10), Nat.digitChar (d.month % 10)] := by
    rcases Nat.lt_or_ge d.month 10 with hlt | hge
    · have h10 : d.month / 10 = 0 := by omega
      have hmod : d.month % 10 = d.month := by omega
      rw [natToChars_small hlt, h10, hmod]
      simp [padStart2, Nat.digitChar]
    · rw [natToChars_large hge,
          natToChars_small (show d.month / 10 < 10 by omega)]
      simp [padStart2]
  rw [monthKey, hy, hm]
  rfl

theorem digitChar_toNat : ∀ x : Nat, x < 10 → (Nat.digitChar x).toNat = 48 + x := by
  decide

theorem digitChar_isDigit : ∀ x : Nat, x < 10 → (Nat.digitChar x).isDigit = true := by
  decide

/-- Numeric reading of a month key: the digits of `YYYY-MM` interpreted as
one number (`year * 100 + month`), giving the chronological order. -/
def keyNum (s : String) : Nat :=
  s.data.foldl (fun acc c => if c.isDigit then acc * 10 + (c.toNat - 48) else acc) 0

theorem keyNum_monthKey {d : DateYMD} (h : ValidDate d) :
    keyNum (monthKey d) = d.year * 100 + d.month := by
  have hb := h
  obtain ⟨h1, h2, h3, h4⟩ := hb
  rw [keyNum, monthKey_data h]
  have i1 := digitChar_isDigit (d.year / 1000) (by omega)
  have i2 := digitChar_isDigit (d.year / 100 % 10) (by omega)
  have i3 := digitChar_isDigit (d.year / 10 % 10) (by omega)
  have i4 := digitChar_isDigit (d.year % 10) (by omega)
  have i5 := digitChar_isDigit (d.month / 10) (by omega)
  have i6 := digitChar_isDigit (d.month % 10) (by omega)
  have t1 := digitChar_toNat (d.year / 1000) (by omega)
  have t2 := digitChar_toNat (d.year / 100 % 10) (by omega)
  have t3 := digitChar_toNat (d.year / 10 % 10) (by omega)
  have t4 := digitChar_toNat (d.year % 10) (by omega)
  have t5 := digitChar_toNat (d.month / 10) (by omega)
  have t6 := digitChar_toNat (d.month % 10) (by omega)
  have idash : ('-' : Char).isDigit = false := rfl
  simp [List.foldl_cons, List.foldl_nil, i1, i2, i3, i4, i5, i6, idash,
    t1, t2, t3, t4, t5, t6]
  omega

/-- One comparison step of `chLt` as a boolean formula. -/
theorem chLt_cons (a b : Char) (as bs : List Char) :
    chLt (a :: as) (b :: bs)
      = (decide (a.toNat < b.toNat)
          || (decide (a.toNat = b.toNat) && chLt as bs)) := by
  simp only [chLt]
  split_ifs with hab hba
  · simp [hab]
  · have hne : a.toNat ≠ b.toNat := by omega
    simp [hab, hne]
  · have heq : a.toNat = b.toNat := by omega
    simp [hab, heq]

theorem chLt_nil : chLt [] [] = false := rfl

set_option maxHeartbeats 1000000 in
/-- On valid dates, the JavaScript string order of month keys implies the
chronological order. -/
theorem keyNum_lt_of_keyLt {d1 d2 : DateYMD} (h1 : ValidDate d1)
    (h2 : ValidDate d2) (h : keyLt (monthKey d1) (monthKey d2)) :
    keyNum (monthKey d1) < keyNum (monthKey d2) := by
  rw [keyNum_monthKey h1, keyNum_monthKey h2]
  have hv1 := h1
  have hv2 := h2
  obtain ⟨a1, a2, a3, a4⟩ := hv1
  obtain ⟨b1, b2, b3, b4⟩ := hv2
  rw [keyLt, monthKey_data h1, monthKey_data h2] at h
  have s1 := digitChar_toNat (d1.year / 1000) (by omega)
  have s2 := digitChar_toNat (d1.year / 100 % 10) (by omega)
  have s3 := digitChar_toNat (d1.year / 10 % 10) (by omega)
  have s4 := digitChar_toNat (d1.year % 10) (by omega)
  have s5 := digitChar_toNat (d1.month / 10) (by omega)
  have s6 := digitChar_toNat (d1.month % 10) (by omega)
  have r1 := digitChar_toNat (d2.year / 1000) (by omega)
  have r2 := digitChar_toNat (d2.year / 100 % 10) (by omega)
  have r3 := digitChar_toNat (d2.year / 10 % 10) (by omega)
  have r4 := digitChar_toNat (d2.year % 10) (by omega)
  have r5 := digitChar_toNat (d2.month / 10) (by omega)
  have r6 := digitChar_toNat (d2.month % 10) (by omega)
  have tdash : ('-' : Char).toNat = 45 := rfl
  simp only [chLt_cons, chLt_nil, Bool.or_eq_true, Bool.and_eq_true,
    decide_eq_true_eq, Bool.false_eq_true, and_false, or_false, true_and,
    and_true, s1, s2, s3, s4, s5, s6, r1, r2, r3, r4, r5, r6, tdash] at h
  omega

/-- C3: for stores of valid dates (four-digit year, month 1–12, as the app's
date pickers produce), `calculateMonthlyTrends(6)` returns at most 6 entries
— exactly `min 6 #distinct-active-months` — one per month key with usage or
bill activity, strictly ascending in the lexicographic key order, which on
these keys is the chronological order (`keyNum`); and every active month key
left out is lexicographically below every returned one (the returned months
are the most recent). -/
theorem claim3_monthly_trends (u : List Usage) (b : List Bill)
    (hu : ∀ x ∈ u, ValidDate x.date) (hbv : ∀ x ∈ b, ValidDate x.date) :
    (calculateMonthlyTrendsPure 6 u b).length ≤ 6
    ∧ (calculateMonthlyTrendsPure 6 u b).length
        = min 6 (activityKeys u b).dedup.length
    ∧ List.Pairwise (fun t1 t2 => keyLt t1.month t2.month)
        (calculateMonthlyTrendsPure 6 u b)
    ∧ List.Pairwise (fun t1 t2 => keyNum t1.month < keyNum t2.month)
        (calculateMonthlyTrendsPure 6 u b)
    ∧ (∀ t ∈ calculateMonthlyTrendsPure 6 u b, t.month ∈ activityKeys u b)
    ∧ (∀ k ∈ activityKeys u b,
        (∀ t ∈ calculateMonthlyTrendsPure 6 u b, t.month ≠ k) →
        ∀ t ∈ calculateMonthlyTrendsPure 6 u b, keyLt k t.month) := by
  set keys := (activityKeys u b).dedup with hkeys
  set sorted := List.insertionSort keyLe keys with hsorted_def
  have hperm : sorted.Perm keys := List.perm_insertionSort keyLe keys
  have hlen_eq : sorted.length = keys.length := hperm.length_eq
  have htrends : calculateMonthlyTrendsPure 6 u b
      = (sorted.drop (sorted.length - 6)).map (fun k =>
          { month := k, totalUsage := monthUsage u k, totalCost := monthCost b k,
            averageDaily := monthUsage u k / (monthDays u k : ℚ) }) := rfl
  have hvalid : ∀ k ∈ keys, ∃ d : DateYMD, ValidDate d ∧ k = monthKey d := by
    intro k hk
    rw [hkeys, List.mem_dedup, activityKeys, List.mem_append] at hk
    rcases hk with hk | hk
    · rcases List.mem_map.mp hk with ⟨x, hx, rfl⟩
      exact ⟨x.date, hu x hx, rfl⟩
    · rcases List.mem_map.mp hk with ⟨x, hx, rfl⟩
      exact ⟨x.date, hbv x hx, rfl⟩
  have hsorted : List.Sorted keyLe sorted := List.sorted_insertionSort keyLe keys
  have hnodup : sorted.Nodup := hperm.nodup_iff.mpr (List.nodup_dedup _)
  have hstrict : List.Pairwise keyLt sorted :=
    (hsorted.and hnodup).imp (fun hab => keyLt_of_keyLe_ne hab.1 hab.2)
  have hdropStrict : List.Pairwise keyLt (sorted.drop (sorted.length - 6)) :=
    List.Pairwise.sublist (List.drop_sublist _ _) hstrict
  have hdropMem : ∀ k ∈ sorted.drop (sorted.length - 6), k ∈ keys :=
    fun k hk => hperm.mem_iff.mp (List.mem_of_mem_drop hk)
  refine ⟨?_, ?_, ?_, ?_, ?_, ?_⟩
  · rw [htrends]
    simp only [List.length_map, List.length_drop]
    omega
  · rw [htrends]
    simp only [List.length_map, List.length_drop]
    omega
  · rw [htrends, List.pairwise_map]
    exact hdropStrict
  · rw [htrends, List.pairwise_map]
    refine List.Pairwise.imp_of_mem ?_ hdropStrict
    intro a c ha hc hac
    obtain ⟨da, hda, rfl⟩ := hvalid a (hdropMem a ha)
    obtain ⟨dc, hdc, rfl⟩ := hvalid c (hdropMem c hc)
    exact keyNum_lt_of_keyLt hda hdc hac
  · intro t ht
    rw [htrends] at ht
    rcases List.mem_map.mp ht with ⟨k, hk, rfl⟩
    have : k ∈ keys := hdropMem k hk
    rw [hkeys, List.mem_dedup] at this
    exact this
  · intro k hk hnot t ht
    have hk' : k ∈ sorted := hperm.mem_iff.mpr (by rw [hkeys, List.mem_dedup]; exact hk)
    have hsplit := List.take_append_drop (sorted.length - 6) sorted
    rw [← hsplit] at hk'
    rcases List.mem_append.mp hk' with hkTake | hkDrop
    · rw [htrends] at ht
      rcases List.mem_map.mp ht with ⟨k', hk'', rfl⟩
      have hcross : List.Pairwise keyLt
          (sorted.take (sorted.length - 6) ++ sorted.drop (sorted.length - 6)) := by
        rw [hsplit]; exact hstrict
      exact (List.pairwise_append.mp hcross).2.2 k hkTake k' hk''
    · exact absurd rfl (hnot _ (by
        rw [htrends]
        exact List.mem_map.mpr ⟨k, hkDrop, rfl⟩))

/-- Usage sample for the C3 witness: activity in 2024-01 and 2024-03. -/
def trendUsageSample : List Usage :=
  [{ id := 1, liters := 100, date := ⟨2024, 1, 1⟩ },
   { id := 2, liters := 50, date := ⟨2024, 3, 5⟩ }]

/-- Bill sample for the C3 witness: activity in 2024-02. -/
def trendBillSample : List Bill :=
  [{ id := "B", amount := 30, date := ⟨2024, 2, 10⟩, consumptionLiters := 10 }]

/-- Witness for C3 at a concrete three-month store. -/
theorem claim3_witness :
    (calculateMonthlyTrendsPure 6 trendUsageSample trendBillSample).length ≤ 6
    ∧ (calculateMonthlyTrendsPure 6 trendUsageSample trendBillSample).length
        = min 6 (activityKeys trendUsageSample trendBillSample).dedup.length
    ∧ List.Pairwise (fun t1 t2 => keyLt t1.month t2.month)
        (calculateMonthlyTrendsPure 6 trendUsageSample trendBillSample)
    ∧ List.Pairwise (fun t1 t2 => keyNum t1.month < keyNum t2.month)
        (calculateMonthlyTrendsPure 6 trendUsageSample trendBillSample)
    ∧ (∀ t ∈ calculateMonthlyTrendsPure 6 trendUsageSample trendBillSample,
        t.month ∈ activityKeys trendUsageSample trendBillSample)
    ∧ (∀ k ∈ activityKeys trendUsageSample trendBillSample,
        (∀ t ∈ calculateMonthlyTrendsPure 6 trendUsageSample trendBillSample,
          t.month ≠ k) →
        ∀ t ∈ calculateMonthlyTrendsPure 6 trendUsageSample trendBillSample,
          keyLt k t.month) :=
  claim3_monthly_trends trendUsageSample trendBillSample (by decide) (by decide)

end WaterWise
